import Mathlib

/-!
Verification of the AutoIngressAudio provisioning script (src/setup.py).

The script runs five steps against three remote AWS services (S3, SQS, IAM):
create a bucket, create a queue, attach a queue policy allowing S3 to send,
wire bucket object-created notifications to the queue, and create an IAM user
with a scoped policy and an access key.

We embed the script shallowly: each AWS client call is a field of an abstract
stateful Provider, and each Python function becomes a Lean function threading
the provider state and recording the trace of issued requests (Event list).
Python exception handling is embedded explicitly: a try/except block that
swallows the exception becomes a branch that discards the error, and a Python
function without a handler returns an Except value (the exception propagates
to the caller). The Python function create_sqs_queue returns None on error;
unpacking such a None raises a TypeError, embedded as PyExc.unpackNone.
-/

deriving instance DecidableEq for Except

/-- The hard-coded configuration constants at the top of setup.py
(AWS_REGION, BUCKET_NAME, QUEUE_NAME, IAM_USER_NAME, IAM_POLICY_NAME),
gathered in a record so theorems can quantify over the configuration
surface the spec describes. -/
structure Config where
  region : String
  bucketName : String
  queueName : String
  userName : String
  policyName : String
  deriving DecidableEq, Repr

/-- The concrete constants of src/setup.py lines 5 to 9. -/
def defaultConfig : Config :=
  { region := "us-east-1"
    bucketName := "audio-transcriber-ingress-bucket"
    queueName := "audio-transcriber-ingress-queue"
    userName := "audio-transcriber-ingress-user"
    policyName := "AudioTranscriberIngressPolicy" }

/-- Error taxonomy of the spec (section 7): the reasons a provider call can
fail. The script never inspects the reason, so the particular constructor
only matters to witnesses. -/
inductive Err where
  | nameCollision
  | permissionDenied
  | malformedConfiguration
  | notFound
  | transientNetwork
  deriving DecidableEq, Repr

/-- A Python exception escaping a function that has no try/except:
either an uncaught provider error, or the TypeError raised when the None
returned by a failed create_sqs_queue is tuple-unpacked. -/
inductive PyExc where
  | unpackNone
  | api (e : Err)
  deriving DecidableEq, Repr

/-- One statement of the queue access policy built in attach_sqs_policy
(setup.py lines 58 to 69): Effect, Principal.Service, Action, Resource and
the Condition.ArnLike.aws:SourceArn value, kept as the literal dict fields. -/
structure SqsStatement where
  effect : String
  principalService : String
  action : String
  resource : String
  conditionSourceArn : String
  deriving DecidableEq, Repr

/-- The queue access policy document: Version plus Statement list. -/
structure SqsPolicy where
  version : String
  statement : List SqsStatement
  deriving DecidableEq, Repr

/-- A Resource field of an IAM statement. In setup.py the first statement
uses a JSON list of strings and the second a bare string, so the embedding
keeps both shapes. -/
inductive ResourceField where
  | str (s : String)
  | list (l : List String)
  deriving DecidableEq, Repr

/-- One statement of the IAM user policy built in create_iam_user
(setup.py lines 101 to 115). -/
structure IamStatement where
  effect : String
  action : List String
  resource : ResourceField
  deriving DecidableEq, Repr

/-- The IAM user policy document: Version plus Statement list. -/
structure IamPolicyDoc where
  version : String
  statement : List IamStatement
  deriving DecidableEq, Repr

/-- One QueueConfigurations entry of the bucket notification configuration
built in configure_s3_notifications (setup.py lines 80 to 87). -/
structure QueueConfiguration where
  queueArn : String
  events : List String
  deriving DecidableEq, Repr

/-- The bucket notification configuration passed to
put_bucket_notification_configuration. -/
structure NotificationConfig where
  queueConfigurations : List QueueConfiguration
  deriving DecidableEq, Repr

/-- A request issued to one of the three AWS clients, with the request data
exactly as the script passes it. The trace of a run is a list of these. -/
inductive Event where
  | createBucketReq (bucket : String) (locationConstraint : Option String)
  | createQueueReq (name : String) (attributes : List (String × String))
  | getQueueAttributesReq (queueUrl : String) (attributeNames : List String)
  | setQueueAttributesReq (queueUrl : String) (policy : SqsPolicy)
  | putBucketNotificationReq (bucket : String) (config : NotificationConfig)
  | createUserReq (userName : String)
  | createPolicyReq (policyName : String) (document : IamPolicyDoc)
  | attachUserPolicyReq (userName : String) (policyArn : String)
  | createAccessKeyReq (userName : String)
  deriving DecidableEq, Repr

/-- The provider boundary: one stateful function per AWS call the script
makes. Each call consumes the remote state, returns either a result or an
error (a raised exception on the Python side), and the successor state.
Keeping sigma abstract lets theorems quantify over every possible remote
behaviour, including failures at any call. -/
structure Provider (σ : Type) where
  createBucket : σ → String → Option String → Except Err Unit × σ
  createQueue : σ → String → List (String × String) → Except Err String × σ
  getQueueAttributes : σ → String → List String → Except Err String × σ
  setQueueAttributes : σ → String → SqsPolicy → Except Err Unit × σ
  putBucketNotification : σ → String → NotificationConfig → Except Err Unit × σ
  createUser : σ → String → Except Err Unit × σ
  createPolicy : σ → String → IamPolicyDoc → Except Err String × σ
  attachUserPolicy : σ → String → String → Except Err Unit × σ
  createAccessKey : σ → String → Except Err (String × String) × σ

/-- setup.py lines 16 to 31, create_s3_bucket: branch on the region to decide
whether a LocationConstraint is sent, and swallow every exception. The Python
function returns None either way, so the embedding returns only the successor
state and the trace. -/
def create_s3_bucket {σ : Type} (cfg : Config) (p : Provider σ) (s : σ) :
    σ × List Event :=
  if cfg.region = "us-east-1" then
    let r := p.createBucket s cfg.bucketName none
    (r.2, [Event.createBucketReq cfg.bucketName none])
  else
    let r := p.createBucket s cfg.bucketName (some cfg.region)
    (r.2, [Event.createBucketReq cfg.bucketName (some cfg.region)])

/-- The Attributes dict of the create_queue call, setup.py lines 40 to 43. -/
def queueCreationAttrs : List (String × String) :=
  [("VisibilityTimeout", "300"), ("MessageRetentionPeriod", "1209600")]

/-- setup.py lines 33 to 54, create_sqs_queue: create the queue, then look up
its QueueArn attribute; on success return the pair (queue url, queue arn); on
any exception swallow it and fall off the end, returning None (embedded as
Option.none). -/
def create_sqs_queue {σ : Type} (cfg : Config) (p : Provider σ) (s : σ) :
    Option (String × String) × σ × List Event :=
  let e1 := Event.createQueueReq cfg.queueName queueCreationAttrs
  match p.createQueue s cfg.queueName queueCreationAttrs with
  | (Except.error _, s1) => (none, s1, [e1])
  | (Except.ok url, s1) =>
    let e2 := Event.getQueueAttributesReq url ["QueueArn"]
    match p.getQueueAttributes s1 url ["QueueArn"] with
    | (Except.error _, s2) => (none, s2, [e1, e2])
    | (Except.ok arn, s2) => (some (url, arn), s2, [e1, e2])

/-- The queue access policy dict built in attach_sqs_policy, setup.py
lines 58 to 69, as a function of the queue arn argument and the bucket
name constant. -/
def mkSqsPolicy (cfg : Config) (queue_arn : String) : SqsPolicy :=
  { version := "2012-10-17"
    statement := [
      { effect := "Allow"
        principalService := "s3.amazonaws.com"
        action := "sqs:SendMessage"
        resource := queue_arn
        conditionSourceArn := "arn:aws:s3:::" ++ cfg.bucketName }] }

/-- setup.py lines 56 to 76, attach_sqs_policy: build the policy from the
queue arn argument, call create_sqs_queue a second time to obtain a queue
url, tuple-unpack its result, and set the Policy attribute of that queue.
This function has no try/except, so a failure escapes to the caller: the
unpack of a None result raises a TypeError, and a set_queue_attributes
error propagates as is. -/
def attach_sqs_policy {σ : Type} (cfg : Config) (p : Provider σ) (s : σ)
    (queue_arn : String) : Except PyExc Unit × σ × List Event :=
  let pol := mkSqsPolicy cfg queue_arn
  match create_sqs_queue cfg p s with
  | (none, s1, tr) => (Except.error PyExc.unpackNone, s1, tr)
  | (some (url, _), s1, tr) =>
    let e := Event.setQueueAttributesReq url pol
    match p.setQueueAttributes s1 url pol with
    | (Except.error er, s2) => (Except.error (PyExc.api er), s2, tr ++ [e])
    | (Except.ok _, s2) => (Except.ok (), s2, tr ++ [e])

/-- The notification configuration dict built in configure_s3_notifications,
setup.py lines 80 to 87. -/
def mkNotificationConfig (queue_arn : String) : NotificationConfig :=
  { queueConfigurations := [{ queueArn := queue_arn
                              events := ["s3:ObjectCreated:*"] }] }

/-- setup.py lines 78 to 93, configure_s3_notifications: put the notification
configuration on the bucket. No try/except, so an error escapes. -/
def configure_s3_notifications {σ : Type} (cfg : Config) (p : Provider σ)
    (s : σ) (queue_arn : String) : Except PyExc Unit × σ × List Event :=
  let nc := mkNotificationConfig queue_arn
  let e := Event.putBucketNotificationReq cfg.bucketName nc
  match p.putBucketNotification s cfg.bucketName nc with
  | (Except.error er, s1) => (Except.error (PyExc.api er), s1, [e])
  | (Except.ok _, s1) => (Except.ok (), s1, [e])

/-- The IAM user policy dict built in create_iam_user, setup.py lines 101
to 115. The second Resource is the literal f-string
arn:aws:sqs:{AWS_REGION}:*: {QUEUE_NAME} of line 112, wildcard account
segment and embedded space included; it does not use the queue arn passed
to the function. -/
def mkIamPolicyDoc (cfg : Config) : IamPolicyDoc :=
  { version := "2012-10-17"
    statement := [
      { effect := "Allow"
        action := ["s3:PutObject", "s3:GetObject"]
        resource := ResourceField.list ["arn:aws:s3:::" ++ cfg.bucketName ++ "/*"] },
      { effect := "Allow"
        action := ["sqs:ReceiveMessage", "sqs:DeleteMessage", "sqs:GetQueueAttributes"]
        resource := ResourceField.str
          ("arn:aws:sqs:" ++ cfg.region ++ ":*: " ++ cfg.queueName) }] }

/-- setup.py lines 95 to 135, create_iam_user: create the user, create the
policy, attach it, create an access key, printing the key pair; the whole
body is wrapped in try/except, so the first failing call ends the function
and nothing propagates. The queue_arn parameter of the Python function is
never used in its body. The function returns None, so the embedding returns
the successor state and the trace. -/
def create_iam_user {σ : Type} (cfg : Config) (p : Provider σ) (s : σ)
    (_queue_arn : String) : σ × List Event :=
  let e1 := Event.createUserReq cfg.userName
  match p.createUser s cfg.userName with
  | (Except.error _, s1) => (s1, [e1])
  | (Except.ok _, s1) =>
    let doc := mkIamPolicyDoc cfg
    let e2 := Event.createPolicyReq cfg.policyName doc
    match p.createPolicy s1 cfg.policyName doc with
    | (Except.error _, s2) => (s2, [e1, e2])
    | (Except.ok parn, s2) =>
      let e3 := Event.attachUserPolicyReq cfg.userName parn
      match p.attachUserPolicy s2 cfg.userName parn with
      | (Except.error _, s3) => (s3, [e1, e2, e3])
      | (Except.ok _, s3) =>
        let e4 := Event.createAccessKeyReq cfg.userName
        match p.createAccessKey s3 cfg.userName with
        | (Except.error _, s4) => (s4, [e1, e2, e3, e4])
        | (Except.ok _, s4) => (s4, [e1, e2, e3, e4])

namespace Setup

/-- setup.py lines 137 to 144, main: run the five steps in order. The line
queue_url, queue_arn = create_sqs_queue() tuple-unpacks the result, raising
a TypeError if it is None; errors escaping attach_sqs_policy or
configure_s3_notifications also abort main, since main has no handler.
The namespace only avoids the Lean restriction on a top-level main. -/
def main {σ : Type} (cfg : Config) (p : Provider σ) (s : σ) :
    Except PyExc Unit × σ × List Event :=
  let r1 := create_s3_bucket cfg p s
  match create_sqs_queue cfg p r1.1 with
  | (none, s2, t2) => (Except.error PyExc.unpackNone, s2, r1.2 ++ t2)
  | (some (_, queue_arn), s2, t2) =>
    match attach_sqs_policy cfg p s2 queue_arn with
    | (Except.error e, s3, t3) => (Except.error e, s3, r1.2 ++ t2 ++ t3)
    | (Except.ok _, s3, t3) =>
      match configure_s3_notifications cfg p s3 queue_arn with
      | (Except.error e, s4, t4) =>
        (Except.error e, s4, r1.2 ++ t2 ++ t3 ++ t4)
      | (Except.ok _, s4, t4) =>
        let r5 := create_iam_user cfg p s4 queue_arn
        (Except.ok (), r5.1, r1.2 ++ t2 ++ t3 ++ t4 ++ r5.2)

end Setup

/-! ### A reference model of the provider boundary

The AWS side is not code of this repository; the spec (sections 3, 4 and 7)
states the semantics the script relies on: queue creation is idempotent by
name and returns the existing address, set_queue_attributes overwrites the
queue access policy, put_bucket_notification_configuration replaces the
existing notification configuration, and bucket, user and policy creation
fail with a name collision when the name is taken. The model below realises
exactly that, so theorems about replacement, idempotency and re-runs can be
stated against concrete provider state. -/

/-- First value bound to the key in an association list, if any. -/
def assocFind {α : Type} (k : String) : List (String × α) → Option α
  | [] => none
  | (k2, v) :: rest => if k2 = k then some v else assocFind k rest

/-- The record the model keeps per queue: its address, the attributes it was
created with, and its current access policy. -/
structure QueueRec where
  url : String
  attrs : List (String × String)
  policy : Option SqsPolicy
  deriving DecidableEq, Repr

/-- First queue entry whose address equals the given url, if any. -/
def findByUrl (url : String) : List (String × QueueRec) → Option (String × QueueRec)
  | [] => none
  | (n, r) :: rest => if r.url = url then some (n, r) else findByUrl url rest

/-- Overwrite the access policy of the first queue whose address equals the
given url. -/
def setPolicyByUrl (url : String) (pol : SqsPolicy) :
    List (String × QueueRec) → List (String × QueueRec)
  | [] => []
  | (n, r) :: rest =>
    if r.url = url then (n, { r with policy := some pol }) :: rest
    else (n, r) :: setPolicyByUrl url pol rest

/-- The remote state of the model provider: buckets, per-bucket notification
configuration, queues keyed by name, users, managed policies keyed by name,
policy attachments, and one entry per minted access key. -/
structure AwsState where
  buckets : List String
  bucketNotifs : List (String × NotificationConfig)
  queues : List (String × QueueRec)
  users : List String
  policies : List (String × IamPolicyDoc)
  attachments : List (String × String)
  accessKeys : List String
  deriving DecidableEq, Repr

/-- The remote state before anything was provisioned. -/
def emptyAwsState : AwsState :=
  { buckets := [], bucketNotifs := [], queues := [], users := []
    policies := [], attachments := [], accessKeys := [] }

/-- Address the model assigns to a queue name. -/
def queueUrlOf (name : String) : String :=
  "https://sqs.us-east-1.amazonaws.com/123456789012/" ++ name

/-- Resource identifier the model assigns to a queue name; this is the value
the QueueArn attribute lookup returns. -/
def queueArnOf (name : String) : String :=
  "arn:aws:sqs:us-east-1:123456789012:" ++ name

/-- The model provider. Modelled from the spec: create_queue is idempotent by
name, set_queue_attributes overwrites the policy, the notification
configuration is replaced not merged, and create_bucket, create_user and
create_policy surface a name collision on an existing name. -/
def awsModel : Provider AwsState :=
  { createBucket := fun s b _ =>
      if b ∈ s.buckets then (Except.error Err.nameCollision, s)
      else (Except.ok (), { s with buckets := b :: s.buckets })
    createQueue := fun s n attrs =>
      match assocFind n s.queues with
      | some q => (Except.ok q.url, s)
      | none => (Except.ok (queueUrlOf n),
          { s with queues := (n, ⟨queueUrlOf n, attrs, none⟩) :: s.queues })
    getQueueAttributes := fun s url _ =>
      match findByUrl url s.queues with
      | some (n, _) => (Except.ok (queueArnOf n), s)
      | none => (Except.error Err.notFound, s)
    setQueueAttributes := fun s url pol =>
      match findByUrl url s.queues with
      | some _ => (Except.ok (), { s with queues := setPolicyByUrl url pol s.queues })
      | none => (Except.error Err.notFound, s)
    putBucketNotification := fun s b nc =>
      if b ∈ s.buckets then
        (Except.ok (),
         { s with bucketNotifs := (b, nc) :: s.bucketNotifs.filter (fun x => x.1 != b) })
      else (Except.error Err.notFound, s)
    createUser := fun s n =>
      if n ∈ s.users then (Except.error Err.nameCollision, s)
      else (Except.ok (), { s with users := n :: s.users })
    createPolicy := fun s n doc =>
      match assocFind n s.policies with
      | some _ => (Except.error Err.nameCollision, s)
      | none => (Except.ok ("arn:aws:iam::123456789012:policy/" ++ n),
          { s with policies := (n, doc) :: s.policies })
    attachUserPolicy := fun s u parn =>
      if u ∈ s.users then (Except.ok (), { s with attachments := (u, parn) :: s.attachments })
      else (Except.error Err.notFound, s)
    createAccessKey := fun s u =>
      if u ∈ s.users then
        (Except.ok ("AKIAEXAMPLEKEYID", "exampleSecretAccessKey"),
         { s with accessKeys := u :: s.accessKeys })
      else (Except.error Err.notFound, s) }

/-- A stateless provider on which every call succeeds; used to evaluate the
script on concrete runs. -/
def happyProvider : Provider Unit :=
  { createBucket := fun s _ _ => (Except.ok (), s)
    createQueue := fun s n _ => (Except.ok (queueUrlOf n), s)
    getQueueAttributes := fun s url _ => (Except.ok ("arn:resolved:" ++ url), s)
    setQueueAttributes := fun s _ _ => (Except.ok (), s)
    putBucketNotification := fun s _ _ => (Except.ok (), s)
    createUser := fun s _ => (Except.ok (), s)
    createPolicy := fun s n _ => (Except.ok ("arn:aws:iam::123456789012:policy/" ++ n), s)
    attachUserPolicy := fun s _ _ => (Except.ok (), s)
    createAccessKey := fun s _ => (Except.ok ("AKIAEXAMPLEKEYID", "exampleSecret"), s) }

/-- A provider on which only the set_queue_attributes call fails. -/
def sqsSetDeniedProvider : Provider Unit :=
  { happyProvider with
    setQueueAttributes := fun s _ _ => (Except.error Err.permissionDenied, s) }

/-- A provider on which only the create_queue call fails. -/
def queueDownProvider : Provider Unit :=
  { happyProvider with
    createQueue := fun s _ _ => (Except.error Err.transientNetwork, s) }

/-- A provider on which only the create_user call fails, as on a re-run when
the user name is already taken. -/
def userTakenProvider : Provider Unit :=
  { happyProvider with
    createUser := fun s _ => (Except.error Err.nameCollision, s) }

/-- True on the request issued by the identity step first. -/
def Event.isCreateUserReq : Event → Bool
  | Event.createUserReq _ => true
  | _ => false

/-- True on every request that only the access-binder, event-wiring or
identity steps issue (steps 3, 4 and 5). -/
def Event.isDownstreamReq : Event → Bool
  | Event.setQueueAttributesReq _ _ => true
  | Event.putBucketNotificationReq _ _ => true
  | Event.createUserReq _ => true
  | Event.createPolicyReq _ _ => true
  | Event.attachUserPolicyReq _ _ => true
  | Event.createAccessKeyReq _ => true
  | _ => false

/-- Whether a Resource field mentions the given identifier. -/
def ResourceField.mentions : ResourceField → String → Bool
  | ResourceField.str r, s => r == s
  | ResourceField.list rs, s => rs.contains s

/-- Whether any Resource field of the document mentions the identifier. -/
def IamPolicyDoc.mentionsResource (doc : IamPolicyDoc) (s : String) : Bool :=
  doc.statement.any (fun st => st.resource.mentions s)

/-- Split a character list at every occurrence of the separator; the
accumulator holds the current segment reversed. -/
def splitSegAux (sep : Char) : List Char → List Char → List (List Char)
  | [], acc => [acc.reverse]
  | c :: rest, acc =>
    if c = sep then acc.reverse :: splitSegAux sep rest []
    else splitSegAux sep rest (c :: acc)

/-- Whether a colon-separated resource identifier has a segment that is
exactly the wildcard character. -/
def hasWildcardSegment (s : String) : Bool :=
  (splitSegAux ':' s.data []).contains ['*']

/-- Current access policy of the named queue in the model state. -/
def queuePolicyOf (s : AwsState) (name : String) : Option SqsPolicy :=
  match assocFind name s.queues with
  | some q => q.policy
  | none => none

/-- Attributes the named queue was created with in the model state. -/
def queueAttrsOf (s : AwsState) (name : String) : Option (List (String × String)) :=
  (assocFind name s.queues).map QueueRec.attrs

/-- Current notification configuration of the named bucket. -/
def bucketNotifOf (s : AwsState) (b : String) : Option NotificationConfig :=
  assocFind b s.bucketNotifs

/-- A model state holding exactly one queue with the given name and policy. -/
def singleQueueState (name : String) (pol : Option SqsPolicy) : AwsState :=
  { emptyAwsState with
    queues := [(name, ⟨queueUrlOf name, queueCreationAttrs, pol⟩)] }

/-- A model state holding exactly one bucket with the given name. -/
def singleBucketState (b : String) : AwsState :=
  { emptyAwsState with buckets := [b] }

/-- Modelled from the spec (sections 4.2 and 9): the refactored access binder
that threads the queue address obtained by the first create_sqs_queue call
into set_queue_attributes instead of calling create_sqs_queue a second time.
This definition follows the words of the spec, for the refinement claim only;
the definition from the source is attach_sqs_policy. -/
def attach_sqs_policy_threaded {σ : Type} (cfg : Config) (p : Provider σ)
    (s : σ) (queue_url queue_arn : String) : Except PyExc Unit × σ × List Event :=
  let pol := mkSqsPolicy cfg queue_arn
  let e := Event.setQueueAttributesReq queue_url pol
  match p.setQueueAttributes s queue_url pol with
  | (Except.error er, s1) => (Except.error (PyExc.api er), s1, [e])
  | (Except.ok _, s1) => (Except.ok (), s1, [e])

/-! ### Shape of the request trace of each step

Each lemma enumerates the requests a step can issue, for any provider and
any provider state; all claim theorems about traces factor through them. -/

lemma mem_trace_create_s3_bucket {σ : Type} {p : Provider σ} {s : σ}
    {cfg : Config} {e : Event} (h : e ∈ (create_s3_bucket cfg p s).2) :
    e = Event.createBucketReq cfg.bucketName
          (if cfg.region = "us-east-1" then none else some cfg.region) := by
  unfold create_s3_bucket at h
  split at h <;> simp_all


lemma mem_trace_create_sqs_queue {σ : Type} {p : Provider σ} {s : σ}
    {cfg : Config} {e : Event} (h : e ∈ (create_sqs_queue cfg p s).2.2) :
    e = Event.createQueueReq cfg.queueName queueCreationAttrs
    ∨ ∃ u, e = Event.getQueueAttributesReq u ["QueueArn"] := by
  unfold create_sqs_queue at h
  split at h
  · simp at h
    exact Or.inl h
  · dsimp only at h
    split at h
    · simp at h
      rcases h with h | h
      · exact Or.inl h
      · exact Or.inr ⟨_, h⟩
    · simp at h
      rcases h with h | h
      · exact Or.inl h
      · exact Or.inr ⟨_, h⟩

lemma mem_trace_attach_sqs_policy {σ : Type} {p : Provider σ} {s : σ}
    {cfg : Config} {q : String} {e : Event}
    (h : e ∈ (attach_sqs_policy cfg p s q).2.2) :
    e = Event.createQueueReq cfg.queueName queueCreationAttrs
    ∨ (∃ u, e = Event.getQueueAttributesReq u ["QueueArn"])
    ∨ (∃ u, e = Event.setQueueAttributesReq u (mkSqsPolicy cfg q)) := by
  unfold attach_sqs_policy at h
  split at h
  · next s1 tr heq =>
    simp only at h
    have := @mem_trace_create_sqs_queue σ p s cfg e (by rw [heq]; exact h)
    tauto
  · next url arn s1 tr heq =>
    dsimp only at h
    split at h <;>
    · simp only [List.mem_append, List.mem_singleton] at h
      rcases h with h | h
      · have := @mem_trace_create_sqs_queue σ p s cfg e (by rw [heq]; exact h)
        tauto
      · subst h
        exact Or.inr (Or.inr ⟨url, rfl⟩)

lemma mem_trace_configure_s3_notifications {σ : Type} {p : Provider σ}
    {s : σ} {cfg : Config} {q : String} {e : Event}
    (h : e ∈ (configure_s3_notifications cfg p s q).2.2) :
    e = Event.putBucketNotificationReq cfg.bucketName (mkNotificationConfig q) := by
  unfold configure_s3_notifications at h
  dsimp only at h
  split at h <;> simp_all

lemma mem_trace_create_iam_user {σ : Type} {p : Provider σ} {s : σ}
    {cfg : Config} {q : String} {e : Event}
    (h : e ∈ (create_iam_user cfg p s q).2) :
    e = Event.createUserReq cfg.userName
    ∨ e = Event.createPolicyReq cfg.policyName (mkIamPolicyDoc cfg)
    ∨ (∃ a, e = Event.attachUserPolicyReq cfg.userName a)
    ∨ e = Event.createAccessKeyReq cfg.userName := by
  unfold create_iam_user at h
  split at h
  · simp at h
    exact Or.inl h
  · dsimp only at h
    split at h
    · simp at h
      rcases h with h | h
      · exact Or.inl h
      · exact Or.inr (Or.inl h)
    · split at h
      · simp at h
        rcases h with h | h | h
        · exact Or.inl h
        · exact Or.inr (Or.inl h)
        · exact Or.inr (Or.inr (Or.inl ⟨_, h⟩))
      · split at h <;>
        · simp at h
          rcases h with h | h | h | h
          · exact Or.inl h
          · exact Or.inr (Or.inl h)
          · exact Or.inr (Or.inr (Or.inl ⟨_, h⟩))
          · exact Or.inr (Or.inr (Or.inr h))

/-- When the queue step of the run resolves the pair (url, arn), every
request of the whole run has one of the listed shapes; in particular every
queue policy set and every notification configuration put by the run embeds
exactly the resolved arn, and every managed policy created carries the
document built by create_iam_user. -/
lemma mem_trace_main_resolved {σ : Type} {p : Provider σ} {s : σ}
    {cfg : Config} {url arn : String}
    (h : (create_sqs_queue cfg p (create_s3_bucket cfg p s).1).1 = some (url, arn))
    {e : Event} (he : e ∈ (Setup.main cfg p s).2.2) :
    e = Event.createBucketReq cfg.bucketName
          (if cfg.region = "us-east-1" then none else some cfg.region)
    ∨ e = Event.createQueueReq cfg.queueName queueCreationAttrs
    ∨ (∃ u, e = Event.getQueueAttributesReq u ["QueueArn"])
    ∨ (∃ u, e = Event.setQueueAttributesReq u (mkSqsPolicy cfg arn))
    ∨ e = Event.putBucketNotificationReq cfg.bucketName (mkNotificationConfig arn)
    ∨ e = Event.createUserReq cfg.userName
    ∨ e = Event.createPolicyReq cfg.policyName (mkIamPolicyDoc cfg)
    ∨ (∃ a, e = Event.attachUserPolicyReq cfg.userName a)
    ∨ e = Event.createAccessKeyReq cfg.userName := by
  unfold Setup.main at he
  dsimp only at he
  split at he
  · next s2 t2 heq =>
    rw [heq] at h
    simp at h
  · next url2 arn2 s2 t2 heq =>
    rw [heq] at h
    simp only [Option.some.injEq, Prod.mk.injEq] at h
    obtain ⟨hu, ha⟩ := h
    subst hu
    subst ha
    have ht2 : ∀ x, x ∈ t2 →
        x = Event.createQueueReq cfg.queueName queueCreationAttrs
        ∨ ∃ u, x = Event.getQueueAttributesReq u ["QueueArn"] := fun x hx =>
      mem_trace_create_sqs_queue (by rw [heq]; exact hx)
    split at he
    · next ex s3 t3 heq2 =>
      simp only [List.mem_append] at he
      rcases he with (he | he) | he
      · exact Or.inl (mem_trace_create_s3_bucket he)
      · rcases ht2 e he with h1 | h1 <;> tauto
      · have h1 := mem_trace_attach_sqs_policy (q := arn2) (by rw [heq2]; exact he)
        tauto
    · next u3 s3 t3 heq2 =>
      have ht3 : ∀ x, x ∈ t3 →
          x = Event.createQueueReq cfg.queueName queueCreationAttrs
          ∨ (∃ u, x = Event.getQueueAttributesReq u ["QueueArn"])
          ∨ (∃ u, x = Event.setQueueAttributesReq u (mkSqsPolicy cfg arn2)) :=
        fun x hx => mem_trace_attach_sqs_policy (by rw [heq2]; exact hx)
      split at he
      · next ex s4 t4 heq3 =>
        simp only [List.mem_append] at he
        rcases he with ((he | he) | he) | he
        · exact Or.inl (mem_trace_create_s3_bucket he)
        · rcases ht2 e he with h1 | h1 <;> tauto
        · rcases ht3 e he with h1 | h1 | h1 <;> tauto
        · have h1 := mem_trace_configure_s3_notifications (q := arn2)
            (by rw [heq3]; exact he)
          tauto
      · next u4 s4 t4 heq3 =>
        dsimp only at he
        simp only [List.mem_append] at he
        rcases he with (((he | he) | he) | he) | he
        · exact Or.inl (mem_trace_create_s3_bucket he)
        · rcases ht2 e he with h1 | h1 <;> tauto
        · rcases ht3 e he with h1 | h1 | h1 <;> tauto
        · have h1 := mem_trace_configure_s3_notifications (q := arn2)
            (by rw [heq3]; exact he)
          tauto
        · have h1 := mem_trace_create_iam_user (q := arn2) he
          rcases h1 with h1 | h1 | h1 | h1 <;> tauto

/-! ### Claim theorems -/

/-- C4: for every configured region value, create_s3_bucket issues exactly
one create-bucket request; when the region is the provider default
us-east-1 the request carries no location constraint, and for every other
region it carries an explicit location constraint equal to that region. -/
theorem c4_region_location_constraint {σ : Type} (p : Provider σ) (s : σ)
    (cfg : Config) :
    (create_s3_bucket cfg p s).2 =
      [Event.createBucketReq cfg.bucketName
        (if cfg.region = "us-east-1" then none else some cfg.region)] := by
  unfold create_s3_bucket
  split <;> simp_all

/-- C5: every queue-creation request issued by the queue provisioner names
the configured queue and carries exactly the attribute values visibility
timeout 300 and retention 1209600; on the model provider the created queue
record therefore holds exactly these attributes. -/
theorem c5_queue_creation_attributes {σ : Type} (p : Provider σ) (s : σ)
    (cfg : Config) :
    (∀ n attrs, Event.createQueueReq n attrs ∈ (create_sqs_queue cfg p s).2.2 →
        n = cfg.queueName
        ∧ attrs = [("VisibilityTimeout", "300"), ("MessageRetentionPeriod", "1209600")])
    ∧ queueAttrsOf (create_sqs_queue cfg awsModel emptyAwsState).2.1 cfg.queueName
        = some [("VisibilityTimeout", "300"), ("MessageRetentionPeriod", "1209600")] := by
  constructor
  · intro n attrs hm
    rcases mem_trace_create_sqs_queue hm with h | ⟨u, h⟩
    · simp only [Event.createQueueReq.injEq] at h
      exact ⟨h.1, h.2.trans rfl⟩
    · simp at h
  · simp [create_sqs_queue, awsModel, queueAttrsOf, assocFind, findByUrl,
      emptyAwsState, queueCreationAttrs]

/-- C5 witness: the concrete request of the default configuration run. -/
theorem c5_queue_creation_attributes_witness :
    Event.createQueueReq "audio-transcriber-ingress-queue" queueCreationAttrs
        ∈ (create_sqs_queue defaultConfig happyProvider ()).2.2
    ∧ ("audio-transcriber-ingress-queue" = defaultConfig.queueName
       ∧ queueCreationAttrs
           = [("VisibilityTimeout", "300"), ("MessageRetentionPeriod", "1209600")]) :=
  ⟨by decide,
   (c5_queue_creation_attributes happyProvider () defaultConfig).1 _ _ (by decide)⟩

/-- C6: every queue policy the access binder sets is exactly the single
Allow statement with principal s3.amazonaws.com, action sqs:SendMessage,
resource equal to the queue arn passed in, and condition restricting the
source to the full resource name of the configured bucket; and on the model
provider the set overwrites whatever policy the queue had before. -/
theorem c6_access_binder_policy {σ : Type} (p : Provider σ) (s : σ)
    (cfg : Config) (q : String) :
    (∀ u pol, Event.setQueueAttributesReq u pol ∈ (attach_sqs_policy cfg p s q).2.2 →
        pol = mkSqsPolicy cfg q)
    ∧ (mkSqsPolicy cfg q).statement =
        [{ effect := "Allow", principalService := "s3.amazonaws.com",
           action := "sqs:SendMessage", resource := q,
           conditionSourceArn := "arn:aws:s3:::" ++ cfg.bucketName }]
    ∧ ∀ prior : SqsPolicy,
        queuePolicyOf
          (attach_sqs_policy cfg awsModel
            (singleQueueState cfg.queueName (some prior)) q).2.1
          cfg.queueName
          = some (mkSqsPolicy cfg q) := by
  refine ⟨?_, rfl, ?_⟩
  · intro u pol hm
    rcases mem_trace_attach_sqs_policy hm with h | ⟨u2, h⟩ | ⟨u2, h⟩
    · simp at h
    · simp at h
    · simp only [Event.setQueueAttributesReq.injEq] at h
      exact h.2
  · intro prior
    simp [attach_sqs_policy, create_sqs_queue, awsModel, singleQueueState,
      emptyAwsState, assocFind, findByUrl, setPolicyByUrl, queuePolicyOf]

/-- C6 witness: the concrete policy set on a run at the default
configuration, and the overwrite of a concrete prior policy. -/
theorem c6_access_binder_policy_witness :
    Event.setQueueAttributesReq (queueUrlOf "audio-transcriber-ingress-queue")
        (mkSqsPolicy defaultConfig (queueArnOf "audio-transcriber-ingress-queue"))
      ∈ (attach_sqs_policy defaultConfig awsModel
          (singleQueueState "audio-transcriber-ingress-queue" none)
          (queueArnOf "audio-transcriber-ingress-queue")).2.2
    ∧ mkSqsPolicy defaultConfig (queueArnOf "audio-transcriber-ingress-queue")
        = mkSqsPolicy defaultConfig (queueArnOf "audio-transcriber-ingress-queue")
    ∧ queuePolicyOf
        (attach_sqs_policy defaultConfig awsModel
          (singleQueueState defaultConfig.queueName
            (some (mkSqsPolicy defaultConfig "arn:some-earlier-grant")))
          (queueArnOf "audio-transcriber-ingress-queue")).2.1
        defaultConfig.queueName
        = some (mkSqsPolicy defaultConfig (queueArnOf "audio-transcriber-ingress-queue")) :=
  ⟨by decide,
   (c6_access_binder_policy awsModel
      (singleQueueState "audio-transcriber-ingress-queue" none) defaultConfig
      (queueArnOf "audio-transcriber-ingress-queue")).1
     (queueUrlOf "audio-transcriber-ingress-queue")
     (mkSqsPolicy defaultConfig (queueArnOf "audio-transcriber-ingress-queue"))
     (by decide),
   (c6_access_binder_policy awsModel
      (singleQueueState "audio-transcriber-ingress-queue" none) defaultConfig
      (queueArnOf "audio-transcriber-ingress-queue")).2.2
     (mkSqsPolicy defaultConfig "arn:some-earlier-grant")⟩

/-- C7: the event wiring step issues exactly one put-notification request,
on the configured bucket, whose configuration maps exactly one queue
destination, the arn passed in, to all object-created sub-events; and on
the model provider a second application with a different arn leaves the
bucket with exactly the second configuration. -/
theorem c7_event_wiring_replaces {σ : Type} (p : Provider σ) (s : σ)
    (cfg : Config) (q q2 : String) :
    (configure_s3_notifications cfg p s q).2.2 =
      [Event.putBucketNotificationReq cfg.bucketName (mkNotificationConfig q)]
    ∧ (mkNotificationConfig q).queueConfigurations
        = [{ queueArn := q, events := ["s3:ObjectCreated:*"] }]
    ∧ bucketNotifOf
        (configure_s3_notifications cfg awsModel
          (configure_s3_notifications cfg awsModel
            (singleBucketState cfg.bucketName) q).2.1
          q2).2.1
        cfg.bucketName = some (mkNotificationConfig q2) := by
  refine ⟨?_, rfl, ?_⟩
  · unfold configure_s3_notifications
    dsimp only
    split <;> rfl
  · simp [configure_s3_notifications, awsModel, singleBucketState,
      emptyAwsState, bucketNotifOf, assocFind, List.filter]

/-- C3 counterexample: in the policy document attached to the identity at
the default configuration, the queue resource is the hand-assembled string
whose account segment is the wildcard (with an embedded space), so not
every resource is scoped to the specifically configured queue; the document
is the one the run actually submits in its create-policy request. -/
theorem c3_counterexample :
    (mkIamPolicyDoc defaultConfig).statement.map IamStatement.resource =
      [ResourceField.list ["arn:aws:s3:::audio-transcriber-ingress-bucket/*"],
       ResourceField.str "arn:aws:sqs:us-east-1:*: audio-transcriber-ingress-queue"]
    ∧ hasWildcardSegment "arn:aws:sqs:us-east-1:*: audio-transcriber-ingress-queue" = true
    ∧ Event.createPolicyReq "AudioTranscriberIngressPolicy" (mkIamPolicyDoc defaultConfig)
        ∈ (Setup.main defaultConfig happyProvider ()).2.2 := by
  decide

/-- C3 amended: the policy the identity step creates grants exactly the
five declared actions, and its bucket resource is scoped to the configured
bucket, but its queue resource is the hand-assembled string
arn:aws:sqs:(region):*: (queue name), whose account segment is a wildcard
with an embedded space rather than a reference scoped to the configured
queue alone; every create-policy request of the step carries exactly this
document under the configured policy name. -/
theorem c3_amended_policy_shape {σ : Type} (p : Provider σ) (s : σ)
    (cfg : Config) (q : String) :
    (mkIamPolicyDoc cfg).statement.map IamStatement.action =
      [["s3:PutObject", "s3:GetObject"],
       ["sqs:ReceiveMessage", "sqs:DeleteMessage", "sqs:GetQueueAttributes"]]
    ∧ (mkIamPolicyDoc cfg).statement.map IamStatement.resource =
      [ResourceField.list ["arn:aws:s3:::" ++ cfg.bucketName ++ "/*"],
       ResourceField.str ("arn:aws:sqs:" ++ cfg.region ++ ":*: " ++ cfg.queueName)]
    ∧ ∀ n doc, Event.createPolicyReq n doc ∈ (create_iam_user cfg p s q).2 →
        n = cfg.policyName ∧ doc = mkIamPolicyDoc cfg := by
  refine ⟨rfl, rfl, ?_⟩
  intro n doc hm
  rcases mem_trace_create_iam_user hm with h | h | ⟨a, h⟩ | h
  · simp at h
  · simp only [Event.createPolicyReq.injEq] at h
    exact h
  · simp at h
  · simp at h

/-- C3 amended witness: the create-policy request of the default run. -/
theorem c3_amended_policy_shape_witness :
    Event.createPolicyReq "AudioTranscriberIngressPolicy" (mkIamPolicyDoc defaultConfig)
        ∈ (create_iam_user defaultConfig happyProvider () "arn:q").2
    ∧ ("AudioTranscriberIngressPolicy" = defaultConfig.policyName
       ∧ mkIamPolicyDoc defaultConfig = mkIamPolicyDoc defaultConfig) :=
  ⟨by decide,
   (c3_amended_policy_shape happyProvider () defaultConfig "arn:q").2.2
     "AudioTranscriberIngressPolicy" (mkIamPolicyDoc defaultConfig) (by decide)⟩

/-- C2 counterexample: on a run where every provider call succeeds, the
queue step resolves the arn returned by the attribute lookup, yet the
identity policy document the run submits does not mention that resolved
identifier anywhere in its resource fields: it embeds a locally computed
string instead. -/
theorem c2_counterexample :
    (create_sqs_queue defaultConfig happyProvider ()).1
      = some (queueUrlOf "audio-transcriber-ingress-queue",
              "arn:resolved:" ++ queueUrlOf "audio-transcriber-ingress-queue")
    ∧ Event.createPolicyReq "AudioTranscriberIngressPolicy" (mkIamPolicyDoc defaultConfig)
        ∈ (Setup.main defaultConfig happyProvider ()).2.2
    ∧ (mkIamPolicyDoc defaultConfig).mentionsResource
        ("arn:resolved:" ++ queueUrlOf "audio-transcriber-ingress-queue") = false := by
  decide

/-- C2 amended: in every run whose queue step resolves the pair (url, arn),
the queue policy set by the access binder and the notification
configuration put by the event wiring embed exactly the resolved arn, but
the policy document created by the identity step is always the fixed
document embedding the locally computed string
arn:aws:sqs:(region):*: (queue name) instead of the resolved identifier. -/
theorem c2_amended_identifier_threading {σ : Type} (p : Provider σ) (s : σ)
    (cfg : Config) (url arn : String)
    (h : (create_sqs_queue cfg p (create_s3_bucket cfg p s).1).1 = some (url, arn)) :
    (∀ u pol, Event.setQueueAttributesReq u pol ∈ (Setup.main cfg p s).2.2 →
        pol = mkSqsPolicy cfg arn
        ∧ pol.statement.map SqsStatement.resource = [arn])
    ∧ (∀ b nc, Event.putBucketNotificationReq b nc ∈ (Setup.main cfg p s).2.2 →
        nc = mkNotificationConfig arn
        ∧ nc.queueConfigurations.map QueueConfiguration.queueArn = [arn])
    ∧ (∀ n doc, Event.createPolicyReq n doc ∈ (Setup.main cfg p s).2.2 →
        doc = mkIamPolicyDoc cfg
        ∧ doc.statement.map IamStatement.resource =
            [ResourceField.list ["arn:aws:s3:::" ++ cfg.bucketName ++ "/*"],
             ResourceField.str ("arn:aws:sqs:" ++ cfg.region ++ ":*: " ++ cfg.queueName)]) := by
  refine ⟨?_, ?_, ?_⟩
  · intro u pol hm
    rcases mem_trace_main_resolved h hm with
      h1 | h1 | ⟨u2, h1⟩ | ⟨u2, h1⟩ | h1 | h1 | h1 | ⟨a2, h1⟩ | h1 <;>
      first
        | (simp only [Event.setQueueAttributesReq.injEq] at h1
           exact ⟨h1.2, by simp [h1.2, mkSqsPolicy]⟩)
        | simp at h1
  · intro b nc hm
    rcases mem_trace_main_resolved h hm with
      h1 | h1 | ⟨u2, h1⟩ | ⟨u2, h1⟩ | h1 | h1 | h1 | ⟨a2, h1⟩ | h1 <;>
      first
        | (simp only [Event.putBucketNotificationReq.injEq] at h1
           exact ⟨h1.2, by simp [h1.2, mkNotificationConfig]⟩)
        | simp at h1
  · intro n doc hm
    rcases mem_trace_main_resolved h hm with
      h1 | h1 | ⟨u2, h1⟩ | ⟨u2, h1⟩ | h1 | h1 | h1 | ⟨a2, h1⟩ | h1 <;>
      first
        | (simp only [Event.createPolicyReq.injEq] at h1
           exact ⟨h1.2, by simp [h1.2, mkIamPolicyDoc]⟩)
        | simp at h1

/-- C2 amended witness: the queue policy set on the default happy run
carries the resolved arn as its resource. -/
theorem c2_amended_identifier_threading_witness :
    mkSqsPolicy defaultConfig
        ("arn:resolved:" ++ queueUrlOf "audio-transcriber-ingress-queue")
      = mkSqsPolicy defaultConfig
        ("arn:resolved:" ++ queueUrlOf "audio-transcriber-ingress-queue")
    ∧ (mkSqsPolicy defaultConfig
        ("arn:resolved:" ++ queueUrlOf "audio-transcriber-ingress-queue")).statement.map
          SqsStatement.resource
      = ["arn:resolved:" ++ queueUrlOf "audio-transcriber-ingress-queue"] :=
  (c2_amended_identifier_threading happyProvider () defaultConfig
      (queueUrlOf "audio-transcriber-ingress-queue")
      ("arn:resolved:" ++ queueUrlOf "audio-transcriber-ingress-queue")
      (by decide)).1
    (queueUrlOf "audio-transcriber-ingress-queue")
    (mkSqsPolicy defaultConfig
      ("arn:resolved:" ++ queueUrlOf "audio-transcriber-ingress-queue"))
    (by decide)

/-- C1 counterexample: on a provider where only the set-queue-attributes
call fails, the access binder does not catch the error: it escapes
attach_sqs_policy and main itself, and the run never issues the event
wiring or identity requests, so the top-level sequence does not proceed
through all five steps. -/
theorem c1_counterexample :
    (attach_sqs_policy defaultConfig sqsSetDeniedProvider ()
        ("arn:resolved:" ++ queueUrlOf "audio-transcriber-ingress-queue")).1
      = Except.error (PyExc.api Err.permissionDenied)
    ∧ (Setup.main defaultConfig sqsSetDeniedProvider ()).1
      = Except.error (PyExc.api Err.permissionDenied)
    ∧ (Setup.main defaultConfig sqsSetDeniedProvider ()).2.2.any
        Event.isCreateUserReq = false
    ∧ (Setup.main defaultConfig sqsSetDeniedProvider ()).2.2.any
        (fun e => match e with
          | Event.putBucketNotificationReq _ _ => true
          | _ => false) = false := by
  decide

lemma any_user_req_create_s3_bucket {σ : Type} (p : Provider σ) (s : σ)
    (cfg : Config) :
    (create_s3_bucket cfg p s).2.any Event.isCreateUserReq = false := by
  rw [List.any_eq_false]
  intro x hx
  rw [mem_trace_create_s3_bucket hx]
  simp [Event.isCreateUserReq]

lemma any_user_req_create_sqs_queue {σ : Type} (p : Provider σ) (s : σ)
    (cfg : Config) :
    (create_sqs_queue cfg p s).2.2.any Event.isCreateUserReq = false := by
  rw [List.any_eq_false]
  intro x hx
  rcases mem_trace_create_sqs_queue hx with h | ⟨u, h⟩ <;>
    simp [h, Event.isCreateUserReq]

lemma any_user_req_attach_sqs_policy {σ : Type} (p : Provider σ) (s : σ)
    (cfg : Config) (q : String) :
    (attach_sqs_policy cfg p s q).2.2.any Event.isCreateUserReq = false := by
  rw [List.any_eq_false]
  intro x hx
  rcases mem_trace_attach_sqs_policy hx with h | ⟨u, h⟩ | ⟨u, h⟩ <;>
    simp [h, Event.isCreateUserReq]

lemma any_user_req_configure_s3_notifications {σ : Type} (p : Provider σ)
    (s : σ) (cfg : Config) (q : String) :
    (configure_s3_notifications cfg p s q).2.2.any Event.isCreateUserReq = false := by
  rw [List.any_eq_false]
  intro x hx
  rw [mem_trace_configure_s3_notifications hx]
  simp [Event.isCreateUserReq]

lemma any_user_req_create_iam_user {σ : Type} (p : Provider σ) (s : σ)
    (cfg : Config) (q : String) :
    (create_iam_user cfg p s q).2.any Event.isCreateUserReq = true := by
  unfold create_iam_user
  split
  · simp [Event.isCreateUserReq]
  · dsimp only
    split
    · simp [Event.isCreateUserReq]
    · split
      · simp [Event.isCreateUserReq]
      · split <;> simp [Event.isCreateUserReq]

/-- C1 amended: only steps 1 (bucket), 2 (queue) and 5 (identity) catch all
errors at their own boundary; steps 3 (access binder) and 4 (event wiring)
have no handler, and a queue-creation failure makes the top level fail at
tuple unpacking, so the run reaches the identity step exactly when it
finishes without an escaped exception: main returns ok if and only if its
trace contains the identity-creation request. -/
theorem c1_amended_propagation {σ : Type} (p : Provider σ) (s : σ)
    (cfg : Config) :
    (Setup.main cfg p s).1 = Except.ok ()
      ↔ (Setup.main cfg p s).2.2.any Event.isCreateUserReq = true := by
  unfold Setup.main
  dsimp only
  split
  · next s2 t2 heq =>
    have h2 : t2.any Event.isCreateUserReq = false := by
      have hx := any_user_req_create_sqs_queue p (create_s3_bucket cfg p s).1 cfg
      rw [heq] at hx
      exact hx
    simp [List.any_append, any_user_req_create_s3_bucket, h2]
  · next url arn s2 t2 heq =>
    have h2 : t2.any Event.isCreateUserReq = false := by
      have hx := any_user_req_create_sqs_queue p (create_s3_bucket cfg p s).1 cfg
      rw [heq] at hx
      exact hx
    split
    · next ex s3 t3 heq2 =>
      have h3 : t3.any Event.isCreateUserReq = false := by
        have hx := any_user_req_attach_sqs_policy p s2 cfg arn
        rw [heq2] at hx
        exact hx
      constructor
      · intro hc
        simp at hc
      · intro hany
        simp [List.any_append, any_user_req_create_s3_bucket, h2, h3] at hany
    · next u3 s3 t3 heq2 =>
      have h3 : t3.any Event.isCreateUserReq = false := by
        have hx := any_user_req_attach_sqs_policy p s2 cfg arn
        rw [heq2] at hx
        exact hx
      split
      · next ex s4 t4 heq3 =>
        have h4 : t4.any Event.isCreateUserReq = false := by
          have hx := any_user_req_configure_s3_notifications p s3 cfg arn
          rw [heq3] at hx
          exact hx
        constructor
        · intro hc
          simp at hc
        · intro hany
          simp [List.any_append, any_user_req_create_s3_bucket, h2, h3, h4] at hany
      · next u4 s4 t4 heq3 =>
        have h5 := any_user_req_create_iam_user p s4 cfg arn
        simp [List.any_append, h5]

/-- C9: when the create-user call fails (as on a re-run with the name
already taken), create_iam_user issues no further request: the trace is the
single create-user request, the state is whatever the failing call left,
and on the model provider with the user name present the call surfaces a
name collision and no policy, attachment or access key is added. -/
theorem c9_user_collision_stops_substeps {σ : Type} (p : Provider σ) (s : σ)
    (cfg : Config) (q : String) (er : Err)
    (h : (p.createUser s cfg.userName).1 = Except.error er) :
    ((create_iam_user cfg p s q).2 = [Event.createUserReq cfg.userName]
     ∧ (create_iam_user cfg p s q).1 = (p.createUser s cfg.userName).2)
    ∧ ∀ t : AwsState, cfg.userName ∈ t.users →
        (awsModel.createUser t cfg.userName).1 = Except.error Err.nameCollision
        ∧ (create_iam_user cfg awsModel t q).1.accessKeys = t.accessKeys
        ∧ (create_iam_user cfg awsModel t q).1.policies = t.policies
        ∧ (create_iam_user cfg awsModel t q).1.attachments = t.attachments
        ∧ (create_iam_user cfg awsModel t q).2 = [Event.createUserReq cfg.userName] := by
  constructor
  · unfold create_iam_user
    rcases hc : p.createUser s cfg.userName with ⟨r, s1⟩
    rw [hc] at h
    dsimp only at h
    subst h
    exact ⟨rfl, rfl⟩
  · intro t ht
    have hcall : awsModel.createUser t cfg.userName
        = (Except.error Err.nameCollision, t) := by
      simp [awsModel, ht]
    refine ⟨by rw [hcall], ?_, ?_, ?_, ?_⟩ <;>
      · unfold create_iam_user
        rw [hcall]

/-- C9 witness: a run against a provider whose create-user call reports the
name taken. -/
theorem c9_user_collision_stops_substeps_witness :
    (userTakenProvider.createUser () defaultConfig.userName).1
        = Except.error Err.nameCollision
    ∧ (create_iam_user defaultConfig userTakenProvider () "arn:q").2
        = [Event.createUserReq defaultConfig.userName] :=
  ⟨by decide,
   ((c9_user_collision_stops_substeps userTakenProvider () defaultConfig "arn:q"
      Err.nameCollision (by decide)).1).1⟩

lemma any_downstream_create_s3_bucket {σ : Type} (p : Provider σ) (s : σ)
    (cfg : Config) :
    (create_s3_bucket cfg p s).2.any Event.isDownstreamReq = false := by
  rw [List.any_eq_false]
  intro x hx
  rw [mem_trace_create_s3_bucket hx]
  simp [Event.isDownstreamReq]

lemma any_downstream_create_sqs_queue {σ : Type} (p : Provider σ) (s : σ)
    (cfg : Config) :
    (create_sqs_queue cfg p s).2.2.any Event.isDownstreamReq = false := by
  rw [List.any_eq_false]
  intro x hx
  rcases mem_trace_create_sqs_queue hx with h | ⟨u, h⟩ <;>
    simp [h, Event.isDownstreamReq]

/-- C10: create_sqs_queue returns no pair exactly when one of its two
provider calls raises; and when the queue step of the run returns no pair,
main fails at the tuple unpacking with a TypeError, its trace consists of
the bucket and queue step requests alone, and no request of the
access-binding, event-wiring or identity steps is ever issued. -/
theorem c10_queue_failure_aborts_run {σ : Type} (p : Provider σ) (s : σ)
    (cfg : Config)
    (h : (create_sqs_queue cfg p (create_s3_bucket cfg p s).1).1 = none) :
    (Setup.main cfg p s).1 = Except.error PyExc.unpackNone
    ∧ (Setup.main cfg p s).2.2
        = (create_s3_bucket cfg p s).2
          ++ (create_sqs_queue cfg p (create_s3_bucket cfg p s).1).2.2
    ∧ (Setup.main cfg p s).2.2.any Event.isDownstreamReq = false
    ∧ ((create_sqs_queue cfg p s).1 = none ↔
        (∃ er, (p.createQueue s cfg.queueName queueCreationAttrs).1
            = Except.error er)
        ∨ (∃ u2 er, (p.createQueue s cfg.queueName queueCreationAttrs).1
              = Except.ok u2
            ∧ (p.getQueueAttributes
                 (p.createQueue s cfg.queueName queueCreationAttrs).2
                 u2 ["QueueArn"]).1 = Except.error er)) := by
  refine ⟨?_, ?_, ?_, ?_⟩
  · unfold Setup.main
    dsimp only
    split
    · rfl
    · next url arn s2 t2 heq =>
      rw [heq] at h
      simp at h
  · unfold Setup.main
    dsimp only
    split
    · next s2 t2 heq =>
      rw [heq]
    · next url arn s2 t2 heq =>
      rw [heq] at h
      simp at h
  · unfold Setup.main
    dsimp only
    split
    · next s2 t2 heq =>
      have h2 : t2.any Event.isDownstreamReq = false := by
        have hx := any_downstream_create_sqs_queue p (create_s3_bucket cfg p s).1 cfg
        rw [heq] at hx
        exact hx
      simp [List.any_append, any_downstream_create_s3_bucket, h2]
    · next url arn s2 t2 heq =>
      rw [heq] at h
      simp at h
  · unfold create_sqs_queue
    rcases hc : p.createQueue s cfg.queueName queueCreationAttrs with ⟨r, s1⟩
    cases r with
    | error er => simp
    | ok u2 =>
      dsimp only
      rcases hg : p.getQueueAttributes s1 u2 ["QueueArn"] with ⟨r2, s2⟩
      cases r2 with
      | error er2 =>
        constructor
        · intro _
          exact Or.inr ⟨u2, er2, rfl, by rw [hg]⟩
        · intro _
          rfl
      | ok arn =>
        constructor
        · intro hcontra
          simp at hcontra
        · intro hcontra
          rcases hcontra with ⟨er, habs⟩ | ⟨u3, er, hok, habs⟩
          · simp at habs
          · simp only [Except.ok.injEq] at hok
            subst hok
            rw [hg] at habs
            simp at habs

/-- C10 witness: a provider whose create-queue call fails with a transient
network error. -/
theorem c10_queue_failure_aborts_run_witness :
    (create_sqs_queue defaultConfig queueDownProvider
        (create_s3_bucket defaultConfig queueDownProvider ()).1).1 = none
    ∧ (Setup.main defaultConfig queueDownProvider ()).1
        = Except.error PyExc.unpackNone :=
  ⟨by decide,
   (c10_queue_failure_aborts_run queueDownProvider () defaultConfig (by decide)).1⟩

/-- On the model provider, where queue creation is idempotent by name, a
successful run of create_sqs_queue is stable: running it again from the
state it produced returns the same address and the same identifier and
leaves the state unchanged. -/
lemma create_sqs_queue_stable (cfg : Config) (s : AwsState) (url arn : String)
    (h : (create_sqs_queue cfg awsModel s).1 = some (url, arn)) :
    create_sqs_queue cfg awsModel (create_sqs_queue cfg awsModel s).2.1
      = (some (url, arn), (create_sqs_queue cfg awsModel s).2.1,
         [Event.createQueueReq cfg.queueName queueCreationAttrs,
          Event.getQueueAttributesReq url ["QueueArn"]]) := by
  rcases hA : assocFind cfg.queueName s.queues with _ | q
  · have hrun : create_sqs_queue cfg awsModel s
        = (some (queueUrlOf cfg.queueName, queueArnOf cfg.queueName),
           { s with queues := (cfg.queueName,
               ⟨queueUrlOf cfg.queueName, queueCreationAttrs, none⟩) :: s.queues },
           [Event.createQueueReq cfg.queueName queueCreationAttrs,
            Event.getQueueAttributesReq (queueUrlOf cfg.queueName) ["QueueArn"]]) := by
      simp [create_sqs_queue, awsModel, hA, findByUrl]
    rw [hrun] at h
    simp only [Option.some.injEq, Prod.mk.injEq] at h
    obtain ⟨hu, ha⟩ := h
    subst hu
    subst ha
    rw [hrun]
    simp [create_sqs_queue, awsModel, assocFind, findByUrl]
  · rcases hB : findByUrl q.url s.queues with _ | nr
    · have hrun : (create_sqs_queue cfg awsModel s).1 = none := by
        simp [create_sqs_queue, awsModel, hA, hB]
      rw [hrun] at h
      simp at h
    · rcases nr with ⟨n, r⟩
      have hrun : create_sqs_queue cfg awsModel s
          = (some (q.url, queueArnOf n), s,
             [Event.createQueueReq cfg.queueName queueCreationAttrs,
              Event.getQueueAttributesReq q.url ["QueueArn"]]) := by
        simp [create_sqs_queue, awsModel, hA, hB]
      rw [hrun] at h
      simp only [Option.some.injEq, Prod.mk.injEq] at h
      obtain ⟨hu, ha⟩ := h
      subst hu
      subst ha
      rw [hrun]
      exact hrun

/-- C8: on the model provider, whose queue creation is idempotent for an
existing name (a second creation with the same name returns the existing
queue address), the access binder as written, which calls create_sqs_queue
a second time, is equivalent to the refactored binder that threads the
first call's address through: both return the same result and leave the
provider in the same state, so the same policy is applied to the same
queue. Only the request trace differs, by the redundant create-queue and
attribute-lookup requests. -/
theorem c8_redundant_call_refinement (cfg : Config) (s : AwsState)
    (url arn : String)
    (h : (create_sqs_queue cfg awsModel s).1 = some (url, arn)) :
    (attach_sqs_policy cfg awsModel (create_sqs_queue cfg awsModel s).2.1 arn).1
      = (attach_sqs_policy_threaded cfg awsModel
          (create_sqs_queue cfg awsModel s).2.1 url arn).1
    ∧ (attach_sqs_policy cfg awsModel (create_sqs_queue cfg awsModel s).2.1 arn).2.1
      = (attach_sqs_policy_threaded cfg awsModel
          (create_sqs_queue cfg awsModel s).2.1 url arn).2.1 := by
  have hs := create_sqs_queue_stable cfg s url arn h
  unfold attach_sqs_policy attach_sqs_policy_threaded
  rw [hs]
  dsimp only
  rcases hset : awsModel.setQueueAttributes (create_sqs_queue cfg awsModel s).2.1
      url (mkSqsPolicy cfg arn) with ⟨r, s3⟩
  cases r <;> simp

/-- C8 witness: the default configuration from an empty remote state. -/
theorem c8_redundant_call_refinement_witness :
    (create_sqs_queue defaultConfig awsModel emptyAwsState).1
      = some (queueUrlOf "audio-transcriber-ingress-queue",
              queueArnOf "audio-transcriber-ingress-queue")
    ∧ ((attach_sqs_policy defaultConfig awsModel
          (create_sqs_queue defaultConfig awsModel emptyAwsState).2.1
          (queueArnOf "audio-transcriber-ingress-queue")).1
        = (attach_sqs_policy_threaded defaultConfig awsModel
            (create_sqs_queue defaultConfig awsModel emptyAwsState).2.1
            (queueUrlOf "audio-transcriber-ingress-queue")
            (queueArnOf "audio-transcriber-ingress-queue")).1
       ∧ (attach_sqs_policy defaultConfig awsModel
            (create_sqs_queue defaultConfig awsModel emptyAwsState).2.1
            (queueArnOf "audio-transcriber-ingress-queue")).2.1
        = (attach_sqs_policy_threaded defaultConfig awsModel
            (create_sqs_queue defaultConfig awsModel emptyAwsState).2.1
            (queueUrlOf "audio-transcriber-ingress-queue")
            (queueArnOf "audio-transcriber-ingress-queue")).2.1) :=
  ⟨by decide,
   c8_redundant_call_refinement defaultConfig emptyAwsState
     (queueUrlOf "audio-transcriber-ingress-queue")
     (queueArnOf "audio-transcriber-ingress-queue") (by decide)⟩
